import Mathlib

/-!
Verification development for the mutable-value storage subsystem of the
lukeburns/hyperdht repository: the signable encoder, the dual signature
backends (red25519 via hypercore-crypto and standard sodium ed25519), the
mutable record store's monotonic accept rule, the replication-level
mutable put, and the testnet bootstrap orchestrator
(`createStandardTestnet` / `Testnet.destroy`).

Bytes are modelled as natural numbers, buffers as `List Nat`.  External
cryptographic primitives (sodium's generic hash and the ed25519 signature
scheme) are modelled from the spec as deterministic computable stand-ins,
faithful to the interface contracts the spec states for them.
-/

/-- Modelled from the spec: the fixed-output generic cryptographic hash
(sodium `crypto_generichash`, external to the repository).  The spec only
requires a deterministic fixed-output hash of the input bytes; this is a
computable deterministic stand-in producing `n` output bytes. -/
def genericHashStandIn (n : Nat) (data : List Nat) : List Nat :=
  (List.range n).map (fun i => (data.foldl (fun a b => (a * 31 + b + 7) % 256) (i + 1) + i) % 256)

/-- Embeds `b4a.allocUnsafe(n)` from `src/lib/crypto.js`: a fresh buffer of
length `n` whose initial contents are arbitrary (the `garbage` argument
makes the arbitrary initial contents explicit). -/
def b4a_allocUnsafe (n : Nat) (garbage : List Nat) : List Nat :=
  garbage.take n ++ List.replicate (n - garbage.length) 0

/-- Embeds `b4a.allocUnsafeSlow(n)` from `src/lib/crypto.js`: identical to
`allocUnsafe` except the buffer is allocated outside the shared slab; the
logical contents are again arbitrary uninitialized bytes of length `n`. -/
def b4a_allocUnsafeSlow (n : Nat) (garbage : List Nat) : List Nat :=
  garbage.take n ++ List.replicate (n - garbage.length) 0

/-- Modelled from the spec: `sodium.crypto_generichash(out, data)` writes
the digest of `data` into `out`, overwriting every byte of `out`; the
result depends only on `data` and on `out`'s length. -/
def sodium_crypto_generichash (out : List Nat) (data : List Nat) : List Nat :=
  genericHashStandIn out.length data

/-- Embeds `hash(data)` from `src/lib/crypto.js`: allocate a 32-byte buffer
with `allocUnsafe`, fill it with the generic hash of `data`, return it. -/
def hash (data : List Nat) (garbage : List Nat) : List Nat :=
  let out := b4a_allocUnsafe 32 garbage
  sodium_crypto_generichash out data

/-- Embeds `unslabbedHash(data)` from `src/lib/crypto.js`: allocate a
32-byte buffer with `allocUnsafeSlow`, fill it with the generic hash of
`data`, return it. -/
def unslabbedHash (data : List Nat) (garbage : List Nat) : List Nat :=
  let out := b4a_allocUnsafeSlow 32 garbage
  sodium_crypto_generichash out data

/-- Fuel-indexed worker for the varint encoder; the fuel only serves to
make the recursion structural (fuel `n` always suffices for input `n`,
and the fuel-exhausted base case is only reachable at `n = 0`, where it
returns the correct `[0]`). -/
def varintEncodeAux : Nat → Nat → List Nat
  | 0, n => [n % 128]
  | fuel + 1, n =>
    if n < 128 then [n] else (n % 128 + 128) :: varintEncodeAux fuel (n / 128)

/-- Modelled from the spec: the ULEB128-style unsigned varint encoder used
by the canonical encoding (`compact-encoding` / `lib/messages.js`, not
under src): seven payload bits per byte, continuation bit on all bytes but
the last. -/
def varintEncode (n : Nat) : List Nat :=
  varintEncodeAux n n

/-- Modelled from the spec: the canonical encoding of `(sequence, value)`
(`m.mutableSignable` in `lib/messages.js`, not under src) — unsigned
varint sequence, then length-prefixed value bytes. -/
def encodeMutableSignable (seq : Nat) (value : List Nat) : List Nat :=
  varintEncode seq ++ varintEncode value.length ++ value

/-- Modelled from the spec: the fixed 32-byte MUTABLE_PUT domain-separation
namespace constant (`NS.MUTABLE_PUT` in `lib/constants.js`, not under
src).  The spec fixes only its length (32 bytes) and its constancy. -/
def NS_MUTABLE_PUT : List Nat :=
  (List.range 32).map (fun i => (i * 7 + 13) % 256)

/-- Embeds the signable construction of the interop tests in
`src/unnamed/part_000` (lines 277-280 and 288-291): a 64-byte buffer whose
first 32 bytes are `NS.MUTABLE_PUT` and whose last 32 bytes are the
generic hash of the canonical encoding of `(seq, value)`. -/
def mkSignable (seq : Nat) (value : List Nat) : List Nat :=
  NS_MUTABLE_PUT ++ genericHashStandIn 32 (encodeMutableSignable seq value)

/-- A key pair: 32-byte public key and scheme-specific secret key. -/
structure KeyPair where
  publicKey : List Nat
  secretKey : List Nat
deriving DecidableEq

/-- Modelled from the spec: the public key determined by a secret key under
the (single, shared) ed25519 signature scheme both backends implement. -/
def ed25519_pub (sk : List Nat) : List Nat :=
  genericHashStandIn 32 (0 :: sk)

/-- Modelled from the spec: the detached-sign operation of the shared
ed25519 scheme; produces a 64-byte signature over the message, determined
by the message and the key pair. -/
def ed25519_sign (msg : List Nat) (sk : List Nat) : List Nat :=
  genericHashStandIn 64 (1 :: (msg ++ ed25519_pub sk))

/-- Modelled from the spec: the detached-verify operation of the shared
ed25519 scheme; a total boolean check of a signature against a message and
public key bytes, never raising. -/
def ed25519_verify (msg : List Nat) (sig : List Nat) (pk : List Nat) : Bool :=
  sig == genericHashStandIn 64 (1 :: (msg ++ pk))

/-- A signature backend: key generation, sign, verify (spec §4.2). -/
structure SigBackend where
  generateKeyPair : List Nat → KeyPair
  sign : List Nat → List Nat → List Nat
  verify : List Nat → List Nat → List Nat → Bool

/-- Modelled from the spec: the red25519 backend (hypercore-crypto, used by
`createKeyPair` in `src/lib/crypto.js` and by `crypto.sign` /
`crypto.verify` in the interop tests).  Per the spec it is a conforming
implementation of the identical ed25519 scheme, differing from the
standard backend only in provenance. -/
def red25519Backend : SigBackend where
  generateKeyPair := fun seed =>
    let sk := genericHashStandIn 32 (2 :: seed)
    { publicKey := ed25519_pub sk, secretKey := sk }
  sign := ed25519_sign
  verify := ed25519_verify

/-- Modelled from the spec: the standard sodium ed25519 backend
(`sodium.crypto_sign_detached` / `sodium.crypto_sign_verify_detached`,
used by hyperdht-standard and directly by the interop tests).  Per the
spec it is a conforming implementation of the identical ed25519 scheme. -/
def standardBackend : SigBackend where
  generateKeyPair := fun seed =>
    let sk := genericHashStandIn 32 (2 :: seed)
    { publicKey := ed25519_pub sk, secretKey := sk }
  sign := ed25519_sign
  verify := ed25519_verify

/-- A mutable record (spec §3): public key, sequence, value, signature. -/
structure Record where
  publicKey : List Nat
  seq : Nat
  value : List Nat
  signature : List Nat
deriving DecidableEq

/-- Modelled from the spec: the Mutable Record Store put path (§4.3, the
store lives in the DHT node implementation, not under src).  Verify the
record's signature over its signable; if invalid reject with no state
change; if valid, accept and replace only when `record.seq` is strictly
greater than the currently stored sequence (absent counts as accept).
Returns the new stored entry and whether the record was accepted. -/
def storePut (cur : Option Record) (r : Record) : Option Record × Bool :=
  if ed25519_verify (mkSignable r.seq r.value) r.signature r.publicKey then
    match cur with
    | none => (some r, true)
    | some c => if r.seq > c.seq then (some r, true) else (some c, false)
  else (cur, false)

/-- Modelled from the spec: the Mutable Record Store get path (§4.3), a
pure read of the stored entry. -/
def storeGet (cur : Option Record) : Option Record := cur

/-- Result of a replication-level mutable put (spec §4.4 / §6). -/
structure PutResult where
  signature : List Nat
  seq : Nat
  publicKey : List Nat
deriving DecidableEq

/-- Modelled from the spec: the replication-level `mutablePut` (§4.4, the
replication protocol lives in the DHT node implementation, not under src).
The record is built with sequence defaulting to 0 unless the caller
supplies an explicit sequence option, signed once over its signable, and
the result reports the signature, the sequence used, and the public
key. -/
def mutablePut (kp : KeyPair) (value : List Nat) (seqOpt : Option Nat) : PutResult :=
  let seq := seqOpt.getD 0
  { signature := ed25519_sign (mkSignable seq value) kp.secretKey
    seq := seq
    publicKey := kp.publicKey }

/-- Embeds the signable construction as the tests actually perform it
(`src/unnamed/part_000` lines 277-280, and identically lines 288-291,
310-313, 321-324): allocate an uninitialized 64-byte buffer, copy
`NS.MUTABLE_PUT` into bytes 0-31, then write the generic hash of the
encoded `(seq, value)` into the 32-byte subarray starting at offset 32.
The `garbage` argument makes the buffer's arbitrary initial contents
explicit. -/
def mkSignableBuf (seq : Nat) (value : List Nat) (garbage : List Nat) : List Nat :=
  let buf := b4a_allocUnsafe 64 garbage
  let buf1 := NS_MUTABLE_PUT ++ buf.drop 32
  buf1.take 32 ++ genericHashStandIn 32 (encodeMutableSignable seq value)

/-- A network address: host and port (spec §3, Testnet). -/
structure Addr where
  host : String
  port : Nat
deriving DecidableEq

/-- A DHT node as the orchestrator sees it: which backend class constructed
it (`DHT` with red25519 vs `StandardHyperDHT`), the bootstrap-contact list
it was constructed with, and its open listening servers. -/
structure Node where
  isRed : Bool
  bootstrapUsed : List Addr
  listening : List Nat
deriving DecidableEq

/-- Embeds the `Testnet` class of `src/unnamed/part_000` (lines 69-84):
the ordered node list and the bootstrap-contact list. -/
structure Testnet where
  nodes : List Node
  bootstrap : List Addr
deriving DecidableEq

/-- An observable step of the orchestrator, in program order: constructing
node `idx` (with its backend class and the bootstrap list passed to the
constructor), awaiting node `idx`'s full-bootstrap signal, registering the
teardown callback, closing one listening server, destroying one node. -/
inductive Event where
  | createNode (idx : Nat) (isRed : Bool) (bootstrap : List Addr)
  | awaitBootstrap (idx : Nat)
  | registerTeardown
  | closeServer (nodeIdx : Nat) (serverId : Nat)
  | destroyNode (idx : Nat)
deriving DecidableEq

/-- Is this event the close of a listening server? -/
def Event.isClose : Event → Bool
  | .closeServer _ _ => true
  | _ => false

/-- Is this event the destruction of a node? -/
def Event.isDestroy : Event → Bool
  | .destroyNode _ => true
  | _ => false

/-- Options accepted by `createStandardTestnet` (the fields the claims
depend on; `teardown` is modelled by the `registerTeardown` event). -/
structure Opts where
  host : Option String
  port : Option Nat
  bootstrap : Option (List Addr)
  includeRed25519 : Bool

def defaultHost : String := "127.0.0.1"

/-- The `while (swarm.length < size)` loop body of `createStandardTestnet`
(`src/unnamed/part_000` lines 50-60) as an event trace: for each remaining
node, construct it as a `StandardHyperDHT` pointed at the shared bootstrap
list, then await its full-bootstrap signal, strictly in that order. -/
def restTrace (bs : List Addr) (startIdx : Nat) : Nat → List Event
  | 0 => []
  | c + 1 =>
    Event.createNode startIdx false bs :: Event.awaitBootstrap startIdx ::
      restTrace bs (startIdx + 1) c

/-- The nodes produced by the `while` loop of `createStandardTestnet`:
each a `StandardHyperDHT` constructed with the shared bootstrap list. -/
def restNodes (bs : List Addr) : Nat → List Node
  | 0 => []
  | c + 1 => { isRed := false, bootstrapUsed := bs, listening := [] } :: restNodes bs c

/-- Line 18 of `src/unnamed/part_000`:
`const bootstrap = opts.bootstrap ? [...opts.bootstrap] : []` — a copy of
the caller's bootstrap contacts, or the empty list. -/
def initialBootstrap (opts : Opts) : List Addr :=
  opts.bootstrap.getD []

/-- Line 46 of `src/unnamed/part_000`:
`if (bootstrap.length === 0) bootstrap.push({ host, port: first.address().port })`
— the bootstrap list shared by all non-seed nodes and returned in the
Testnet: the seed's own `{host, port}` is appended exactly when the
caller-supplied list is empty.  `firstPort` is the port the seed's server
reports after binding. -/
def sharedBootstrap (opts : Opts) (firstPort : Nat) : List Addr :=
  if (initialBootstrap opts).length = 0 then
    initialBootstrap opts ++ [{ host := opts.host.getD defaultHost, port := firstPort }]
  else initialBootstrap opts

/-- Embeds `createStandardTestnet(size, opts)` from `src/unnamed/part_000`
(lines 12-67).  `firstPort` is the port the seed node's server reports
after binding (`first.address().port`), an input from the environment.
Returns the resulting `Testnet` together with the trace of orchestration
events in program order.  Faithful to the source: `size === 0` returns
`new Testnet(swarm)` immediately (empty nodes, default-empty bootstrap, no
events); otherwise the seed node is constructed (red25519 `DHT` when
`opts.includeRed25519`, else `StandardHyperDHT`) with the caller's
bootstrap list, awaited, the seed's `{host, port}` is pushed onto the
bootstrap list exactly when that list is empty, the remaining `size - 1`
nodes are created sequentially against the shared list, and the teardown
callback is registered last. -/
def createStandardTestnet (size : Nat) (opts : Opts) (firstPort : Nat) :
    Testnet × List Event :=
  if size = 0 then ({ nodes := [], bootstrap := [] }, [])
  else
    ({ nodes :=
        { isRed := opts.includeRed25519, bootstrapUsed := initialBootstrap opts,
          listening := [] }
          :: restNodes (sharedBootstrap opts firstPort) (size - 1)
       bootstrap := sharedBootstrap opts firstPort },
     Event.createNode 0 opts.includeRed25519 (initialBootstrap opts) ::
       Event.awaitBootstrap 0 ::
       (restTrace (sharedBootstrap opts firstPort) 1 (size - 1) ++
         [Event.registerTeardown]))

/-- The first loop of `Testnet.destroy` (`src/unnamed/part_000` lines
76-78): for each node in creation order, await the close of each of its
listening servers. -/
def closeEvents (nodes : List Node) : List Event :=
  (nodes.enum.map (fun p => p.2.listening.map (fun s => Event.closeServer p.1 s))).flatten

/-- The second loop of `Testnet.destroy` (`src/unnamed/part_000` lines
80-82): destroy nodes by descending index, last-created first. -/
def destroyEvents (n : Nat) : List Event :=
  (List.range n).reverse.map Event.destroyNode

/-- Embeds `Testnet.destroy` (`src/unnamed/part_000` lines 75-83) as its
event trace: first close every listening server of every node, then
destroy the nodes in strict reverse creation order. -/
def Testnet.destroyTrace (t : Testnet) : List Event :=
  closeEvents t.nodes ++ destroyEvents t.nodes.length

/-- A concrete validly signed record (seq 0) for exercising the store. -/
def wRecord1 : Record :=
  { publicKey := ed25519_pub [3], seq := 0, value := [7]
    signature := ed25519_sign (mkSignable 0 [7]) [3] }

/-- A concrete validly signed record (seq 2, same key) for exercising the
store. -/
def wRecord2 : Record :=
  { publicKey := ed25519_pub [3], seq := 2, value := [8]
    signature := ed25519_sign (mkSignable 2 [8]) [3] }

/-- A concrete option set: no host, no port, no bootstrap contacts, no
red25519 seed. -/
def wOpts : Opts :=
  { host := none, port := none, bootstrap := none, includeRed25519 := false }

/-- A concrete one-node testnet whose node has one listening server. -/
def wTestnet : Testnet :=
  { nodes := [{ isRed := false, bootstrapUsed := [], listening := [5] }]
    bootstrap := [] }

/-! ## Supporting lemmas -/

theorem genericHashStandIn_length (n : Nat) (data : List Nat) :
    (genericHashStandIn n data).length = n := by
  simp [genericHashStandIn]

theorem b4a_allocUnsafe_length (n : Nat) (g : List Nat) :
    (b4a_allocUnsafe n g).length = n := by
  simp [b4a_allocUnsafe]
  omega

theorem b4a_allocUnsafeSlow_length (n : Nat) (g : List Nat) :
    (b4a_allocUnsafeSlow n g).length = n := by
  simp [b4a_allocUnsafeSlow]
  omega

theorem NS_MUTABLE_PUT_length : NS_MUTABLE_PUT.length = 32 := by
  simp [NS_MUTABLE_PUT]

theorem mkSignable_length (seq : Nat) (value : List Nat) :
    (mkSignable seq value).length = 64 := by
  simp [mkSignable, genericHashStandIn_length, NS_MUTABLE_PUT_length]

theorem mkSignableBuf_eq_mkSignable (seq : Nat) (value : List Nat) (g : List Nat) :
    mkSignableBuf seq value g = mkSignable seq value := by
  show (NS_MUTABLE_PUT ++ (b4a_allocUnsafe 64 g).drop 32).take 32 ++
      genericHashStandIn 32 (encodeMutableSignable seq value) = mkSignable seq value
  rw [List.take_left' NS_MUTABLE_PUT_length, mkSignable]

theorem ed25519_verify_sign (msg : List Nat) (sk : List Nat) :
    ed25519_verify msg (ed25519_sign msg sk) (ed25519_pub sk) = true := by
  simp [ed25519_verify, ed25519_sign]

theorem restTrace_length (bs : List Addr) (s c : Nat) :
    (restTrace bs s c).length = 2 * c := by
  induction c generalizing s with
  | zero => rfl
  | succ c ih =>
    rw [restTrace]
    simp [ih]
    omega

theorem restTrace_get (bs : List Addr) (s c j : Nat) (h : j < c) :
    (restTrace bs s c)[2*j]? = some (Event.createNode (s + j) false bs) ∧
    (restTrace bs s c)[2*j+1]? = some (Event.awaitBootstrap (s + j)) := by
  induction c generalizing s j with
  | zero => omega
  | succ c ih =>
    cases j with
    | zero => simp [restTrace]
    | succ j =>
      have hh := ih (s + 1) j (by omega)
      have e2 : s + 1 + j = s + (j + 1) := by omega
      rw [e2] at hh
      rw [restTrace]
      constructor
      · show (Event.createNode s false bs :: Event.awaitBootstrap s ::
            restTrace bs (s + 1) c)[2*j+1+1]? = _
        rw [List.getElem?_cons_succ, List.getElem?_cons_succ]
        exact hh.1
      · show (Event.createNode s false bs :: Event.awaitBootstrap s ::
            restTrace bs (s + 1) c)[2*j+1+1+1]? = _
        rw [List.getElem?_cons_succ, List.getElem?_cons_succ]
        exact hh.2

theorem restNodes_bootstrapUsed (bs : List Addr) (c : Nat) :
    ∀ node ∈ restNodes bs c, node.bootstrapUsed = bs := by
  intro node hn
  induction c with
  | zero => simp [restNodes] at hn
  | succ c ih =>
    rw [restNodes] at hn
    rcases List.mem_cons.mp hn with h | h
    · rw [h]
    · exact ih h

theorem closeEvents_all_close (nodes : List Node) :
    ∀ e ∈ closeEvents nodes, e.isClose = true := by
  intro e he
  rw [closeEvents, List.mem_flatten] at he
  obtain ⟨l, hl, hel⟩ := he
  rw [List.mem_map] at hl
  obtain ⟨p, _, rfl⟩ := hl
  rw [List.mem_map] at hel
  obtain ⟨s, _, rfl⟩ := hel
  rfl

theorem destroyEvents_all_destroy (n : Nat) :
    ∀ e ∈ destroyEvents n, e.isDestroy = true := by
  intro e he
  rw [destroyEvents, List.mem_map] at he
  obtain ⟨i, _, rfl⟩ := he
  rfl

/-! ## Claim theorems -/

/-- C9: for every input byte string, `hash` and `unslabbedHash` return
32-byte buffers with identical contents: both compute the same
generic-hash digest of the input and differ only in how the output buffer
is allocated (modelled by the arbitrary initial buffer contents `g1`,
`g2`). -/
theorem hash_unslabbedHash_agree (data g1 g2 : List Nat) :
    hash data g1 = unslabbedHash data g2 ∧
    (hash data g1).length = 32 ∧
    hash data g1 = genericHashStandIn 32 data := by
  have h1 : hash data g1 = genericHashStandIn 32 data := by
    show genericHashStandIn (b4a_allocUnsafe 32 g1).length data = _
    rw [b4a_allocUnsafe_length]
  have h2 : unslabbedHash data g2 = genericHashStandIn 32 data := by
    show genericHashStandIn (b4a_allocUnsafeSlow 32 g2).length data = _
    rw [b4a_allocUnsafeSlow_length]
  exact ⟨h1.trans h2.symm, by rw [h1, genericHashStandIn_length], h1⟩

/-- C2: for every (sequence, value) pair the signable is a 64-byte buffer
equal to the 32-byte MUTABLE_PUT namespace constant followed by the
32-byte generic hash of the canonical encoding of (sequence, value); the
construction is deterministic, so any two computations over identical
inputs (the signer's copy and the verifier's copy, whatever the allocated
buffers' initial contents) produce byte-identical buffers. -/
theorem signable_construction (seq : Nat) (value g1 g2 : List Nat) :
    (mkSignableBuf seq value g1).length = 64 ∧
    (mkSignableBuf seq value g1).take 32 = NS_MUTABLE_PUT ∧
    NS_MUTABLE_PUT.length = 32 ∧
    (mkSignableBuf seq value g1).drop 32 =
      genericHashStandIn 32 (encodeMutableSignable seq value) ∧
    (genericHashStandIn 32 (encodeMutableSignable seq value)).length = 32 ∧
    mkSignableBuf seq value g1 = mkSignableBuf seq value g2 := by
  rw [mkSignableBuf_eq_mkSignable, mkSignableBuf_eq_mkSignable]
  refine ⟨mkSignable_length seq value, ?_, NS_MUTABLE_PUT_length, ?_,
    genericHashStandIn_length _ _, rfl⟩
  · rw [mkSignable, List.take_left' NS_MUTABLE_PUT_length]
  · rw [mkSignable, List.drop_left' NS_MUTABLE_PUT_length]

/-- C4: a mutable put invoked without an explicit sequence option builds
and signs the record with sequence 0 and reports seq = 0; with an explicit
sequence option the result reports exactly that sequence (e.g. seq 2). -/
theorem mutablePut_seq_defaults (kp : KeyPair) (value : List Nat) :
    (mutablePut kp value none).seq = 0 ∧
    (mutablePut kp value none).signature =
      ed25519_sign (mkSignable 0 value) kp.secretKey ∧
    (∀ n : Nat, (mutablePut kp value (some n)).seq = n) ∧
    (mutablePut kp value (some 2)).seq = 2 :=
  ⟨rfl, rfl, fun _ => rfl, rfl⟩

/-- C8: createStandardTestnet with size 0 returns a Testnet with an empty
node list, constructing no node and performing no orchestration action
(the event trace is empty). -/
theorem testnet_size_zero_empty (opts : Opts) (firstPort : Nat) :
    (createStandardTestnet 0 opts firstPort).1.nodes = [] ∧
    (createStandardTestnet 0 opts firstPort).2 = [] :=
  ⟨rfl, rfl⟩

/-- C10: createStandardTestnet with size 0 returns a Testnet whose
bootstrap list is empty even if the caller supplied bootstrap contacts in
the options, and registers no teardown callback. -/
theorem testnet_size_zero_bootstrap_empty (opts : Opts) (firstPort : Nat) :
    (createStandardTestnet 0 opts firstPort).1.bootstrap = [] ∧
    Event.registerTeardown ∉ (createStandardTestnet 0 opts firstPort).2 := by
  refine ⟨rfl, ?_⟩
  show Event.registerTeardown ∉ ([] : List Event)
  simp

/-- C1: for every key pair generated by either supported signature backend
(red25519 and standard sodium ed25519) and every 64-byte signable, a
signature produced by one backend's sign verifies as true under the other
backend's verify with the same public key bytes, in both directions. -/
theorem backends_cross_verify (seed sgn : List Nat) (_h : sgn.length = 64) :
    standardBackend.verify sgn
      (red25519Backend.sign sgn (red25519Backend.generateKeyPair seed).secretKey)
      (red25519Backend.generateKeyPair seed).publicKey = true ∧
    red25519Backend.verify sgn
      (standardBackend.sign sgn (red25519Backend.generateKeyPair seed).secretKey)
      (red25519Backend.generateKeyPair seed).publicKey = true ∧
    red25519Backend.verify sgn
      (standardBackend.sign sgn (standardBackend.generateKeyPair seed).secretKey)
      (standardBackend.generateKeyPair seed).publicKey = true ∧
    standardBackend.verify sgn
      (red25519Backend.sign sgn (standardBackend.generateKeyPair seed).secretKey)
      (standardBackend.generateKeyPair seed).publicKey = true :=
  ⟨ed25519_verify_sign sgn _, ed25519_verify_sign sgn _,
   ed25519_verify_sign sgn _, ed25519_verify_sign sgn _⟩

/-- Witness for C1: both cross-backend directions at a concrete seed and a
concrete 64-byte signable. -/
theorem backends_cross_verify_witness :
    (List.replicate 64 0).length = 64 ∧
    (standardBackend.verify (List.replicate 64 0)
      (red25519Backend.sign (List.replicate 64 0)
        (red25519Backend.generateKeyPair []).secretKey)
      (red25519Backend.generateKeyPair []).publicKey = true ∧
    red25519Backend.verify (List.replicate 64 0)
      (standardBackend.sign (List.replicate 64 0)
        (red25519Backend.generateKeyPair []).secretKey)
      (red25519Backend.generateKeyPair []).publicKey = true ∧
    red25519Backend.verify (List.replicate 64 0)
      (standardBackend.sign (List.replicate 64 0)
        (standardBackend.generateKeyPair []).secretKey)
      (standardBackend.generateKeyPair []).publicKey = true ∧
    standardBackend.verify (List.replicate 64 0)
      (red25519Backend.sign (List.replicate 64 0)
        (standardBackend.generateKeyPair []).secretKey)
      (standardBackend.generateKeyPair []).publicKey = true) :=
  ⟨by simp, backends_cross_verify [] (List.replicate 64 0) (by simp)⟩

/-- C3: for puts to the same public key with sequences s1 < s2 (both
validly signed), after both puts — in either application order — the store
holds the sequence-s2 record and its value; a put whose sequence is less
than or equal to the currently stored sequence leaves the stored record
unchanged. -/
theorem store_put_monotonic (r1 r2 : Record)
    (_hpk : r1.publicKey = r2.publicKey)
    (h1 : ed25519_verify (mkSignable r1.seq r1.value) r1.signature r1.publicKey = true)
    (h2 : ed25519_verify (mkSignable r2.seq r2.value) r2.signature r2.publicKey = true)
    (hseq : r1.seq < r2.seq) :
    (storePut (storePut none r1).1 r2).1 = some r2 ∧
    (storePut (storePut none r2).1 r1).1 = some r2 ∧
    (∀ c r : Record, r.seq ≤ c.seq → storePut (some c) r = (some c, false)) := by
  refine ⟨?_, ?_, ?_⟩
  · simp [storePut, h1, h2, hseq]
  · simp [storePut, h1, h2, Nat.not_lt.mpr (Nat.le_of_lt hseq)]
  · intro c r hr
    by_cases hv : ed25519_verify (mkSignable r.seq r.value) r.signature r.publicKey = true
    · simp [storePut, hv, Nat.not_lt.mpr hr]
    · simp [storePut, hv]

set_option maxRecDepth 100000 in
/-- Witness for C3: two concrete validly signed records with sequences
0 < 2, applied to an empty store in both orders. -/
theorem store_put_monotonic_witness :
    (storePut (storePut none wRecord1).1 wRecord2).1 = some wRecord2 ∧
    (storePut (storePut none wRecord2).1 wRecord1).1 = some wRecord2 ∧
    (∀ c r : Record, r.seq ≤ c.seq → storePut (some c) r = (some c, false)) :=
  store_put_monotonic wRecord1 wRecord2 rfl (by decide) (by decide) (by decide)

/-- C5: for a testnet of size at least 1, when the caller supplied no
bootstrap contacts the returned Testnet's bootstrap list is exactly the
singleton of the seed node's host and bound port; when the caller supplied
a non-empty bootstrap contact list, the seed's address is not added and
the list is returned as supplied. -/
theorem testnet_bootstrap_registration (size : Nat) (opts : Opts) (firstPort : Nat)
    (hsize : 1 ≤ size) :
    (opts.bootstrap = none →
      (createStandardTestnet size opts firstPort).1.bootstrap =
        [{ host := opts.host.getD defaultHost, port := firstPort }]) ∧
    (∀ l, opts.bootstrap = some l → l ≠ [] →
      (createStandardTestnet size opts firstPort).1.bootstrap = l) := by
  obtain ⟨m, rfl⟩ : ∃ m, size = m + 1 := ⟨size - 1, by omega⟩
  constructor
  · intro hb
    show sharedBootstrap opts firstPort = _
    simp [sharedBootstrap, initialBootstrap, hb]
  · intro l hb hl
    show sharedBootstrap opts firstPort = l
    simp [sharedBootstrap, initialBootstrap, hb, List.length_eq_zero, hl]

/-- Witness for C5: a size-1 testnet with no options set gets exactly the
seed's default host and bound port as its only bootstrap contact. -/
theorem testnet_bootstrap_registration_witness :
    (1 : Nat) ≤ 1 ∧
    ((wOpts.bootstrap = none →
      (createStandardTestnet 1 wOpts 4001).1.bootstrap =
        [{ host := wOpts.host.getD defaultHost, port := 4001 }]) ∧
    (∀ l, wOpts.bootstrap = some l → l ≠ [] →
      (createStandardTestnet 1 wOpts 4001).1.bootstrap = l)) :=
  ⟨by decide, testnet_bootstrap_registration 1 wOpts 4001 (by decide)⟩

/-- C6: for a testnet of size at least 2, the trace places the
construction of node k (k in 1..size-1) at position 2k and the await of
its full-bootstrap signal at position 2k+1, so node k+1 (constructed at
position 2(k+1) > 2k+1) is not constructed until node k's bootstrap has
resolved; node 1 in particular waits for the seed's bootstrap (awaited at
position 1); and every node after the seed is constructed pointed at the
shared bootstrap-contact list. -/
theorem testnet_sequential_creation (size : Nat) (opts : Opts) (firstPort : Nat)
    (hsize : 2 ≤ size) (k : Nat) (hk1 : 1 ≤ k) (hk : k < size) :
    (createStandardTestnet size opts firstPort).2[2*k]? =
      some (Event.createNode k false
        (createStandardTestnet size opts firstPort).1.bootstrap) ∧
    (createStandardTestnet size opts firstPort).2[2*k+1]? =
      some (Event.awaitBootstrap k) ∧
    (∀ node ∈ (createStandardTestnet size opts firstPort).1.nodes.drop 1,
      node.bootstrapUsed = (createStandardTestnet size opts firstPort).1.bootstrap) ∧
    (createStandardTestnet size opts firstPort).2[1]? =
      some (Event.awaitBootstrap 0) := by
  obtain ⟨m, rfl⟩ : ∃ m, size = m + 1 := ⟨size - 1, by omega⟩
  obtain ⟨j, rfl⟩ : ∃ j, k = j + 1 := ⟨k - 1, by omega⟩
  have hg := restTrace_get (sharedBootstrap opts firstPort) 1 m j (by omega)
  have e2 : (1 : Nat) + j = j + 1 := by omega
  rw [e2] at hg
  refine ⟨?_, ?_, ?_, ?_⟩
  · show (Event.createNode 0 opts.includeRed25519 (initialBootstrap opts) ::
        Event.awaitBootstrap 0 ::
        (restTrace (sharedBootstrap opts firstPort) 1 m ++
          [Event.registerTeardown]))[2*j+1+1]? =
      some (Event.createNode (j + 1) false (sharedBootstrap opts firstPort))
    rw [List.getElem?_cons_succ, List.getElem?_cons_succ,
      List.getElem?_append_left (by rw [restTrace_length]; omega)]
    exact hg.1
  · show (Event.createNode 0 opts.includeRed25519 (initialBootstrap opts) ::
        Event.awaitBootstrap 0 ::
        (restTrace (sharedBootstrap opts firstPort) 1 m ++
          [Event.registerTeardown]))[2*j+1+1+1]? =
      some (Event.awaitBootstrap (j + 1))
    rw [List.getElem?_cons_succ, List.getElem?_cons_succ,
      List.getElem?_append_left (by rw [restTrace_length]; omega)]
    exact hg.2
  · show ∀ node ∈ restNodes (sharedBootstrap opts firstPort) m,
      node.bootstrapUsed = sharedBootstrap opts firstPort
    exact restNodes_bootstrapUsed _ m
  · show (Event.createNode 0 opts.includeRed25519 (initialBootstrap opts) ::
        Event.awaitBootstrap 0 ::
        (restTrace (sharedBootstrap opts firstPort) 1 m ++
          [Event.registerTeardown]))[1]? =
      some (Event.awaitBootstrap 0)
    rw [List.getElem?_cons_succ, List.getElem?_cons_zero]

/-- Witness for C6: a size-2 testnet, k = 1. -/
theorem testnet_sequential_creation_witness :
    (2 : Nat) ≤ 2 ∧ (1 : Nat) ≤ 1 ∧ (1 : Nat) < 2 ∧
    ((createStandardTestnet 2 wOpts 4001).2[2*1]? =
      some (Event.createNode 1 false
        (createStandardTestnet 2 wOpts 4001).1.bootstrap) ∧
    (createStandardTestnet 2 wOpts 4001).2[2*1+1]? =
      some (Event.awaitBootstrap 1) ∧
    (∀ node ∈ (createStandardTestnet 2 wOpts 4001).1.nodes.drop 1,
      node.bootstrapUsed = (createStandardTestnet 2 wOpts 4001).1.bootstrap) ∧
    (createStandardTestnet 2 wOpts 4001).2[1]? =
      some (Event.awaitBootstrap 0)) :=
  ⟨by decide, by decide, by decide,
    testnet_sequential_creation 2 wOpts 4001 (by decide) 1 (by decide) (by decide)⟩

/-- C7: `destroy` first closes every listening server of every node (every
close event precedes every destroy event in the trace, and each server of
each node has a close event), and only then destroys the nodes in strict
reverse creation order: the destroy events are exactly `destroyNode` of
the indices `size-1, ..., 1, 0` in that order, so the last-created node is
destroyed first and the seed destroyed last. -/
theorem testnet_destroy_order (t : Testnet) (i j ci si d : Nat)
    (hi : t.destroyTrace[i]? = some (Event.closeServer ci si))
    (hj : t.destroyTrace[j]? = some (Event.destroyNode d)) :
    i < j ∧
    t.destroyTrace.filter Event.isDestroy =
      (List.range t.nodes.length).reverse.map Event.destroyNode ∧
    (∀ a, ∀ h : a < t.nodes.length, ∀ s ∈ (t.nodes.get ⟨a, h⟩).listening,
      Event.closeServer a s ∈ t.destroyTrace) := by
  have hA : i < (closeEvents t.nodes).length := by
    by_contra hcon
    push_neg at hcon
    rw [Testnet.destroyTrace, List.getElem?_append_right hcon] at hi
    have hmem := destroyEvents_all_destroy t.nodes.length _ (List.getElem?_mem hi)
    simp [Event.isDestroy] at hmem
  have hB : (closeEvents t.nodes).length ≤ j := by
    by_contra hcon
    push_neg at hcon
    rw [Testnet.destroyTrace, List.getElem?_append_left hcon] at hj
    have hmem := closeEvents_all_close t.nodes _ (List.getElem?_mem hj)
    simp [Event.isClose] at hmem
  refine ⟨lt_of_lt_of_le hA hB, ?_, ?_⟩
  · have hc : ∀ e ∈ closeEvents t.nodes, ¬(Event.isDestroy e = true) := by
      intro e he
      have h := closeEvents_all_close t.nodes e he
      cases e <;> simp_all [Event.isClose, Event.isDestroy]
    rw [Testnet.destroyTrace, List.filter_append, List.filter_eq_nil_iff.mpr hc,
      List.filter_eq_self.mpr (destroyEvents_all_destroy t.nodes.length)]
    rfl
  · intro a h s hs
    rw [Testnet.destroyTrace]
    apply List.mem_append_left
    rw [closeEvents, List.mem_flatten]
    refine ⟨(t.nodes.get ⟨a, h⟩).listening.map (fun sv => Event.closeServer a sv),
      ?_, List.mem_map.mpr ⟨s, hs, rfl⟩⟩
    rw [List.mem_map]
    refine ⟨(a, t.nodes.get ⟨a, h⟩), ?_, rfl⟩
    have hl : a < t.nodes.enum.length := by simpa using h
    have hg := List.getElem_enum t.nodes a hl
    have hm : t.nodes.enum[a] ∈ t.nodes.enum := List.getElem_mem hl
    rw [hg] at hm
    exact hm

/-- Witness for C7: a one-node testnet with one listening server; its
destroy trace is `[closeServer 0 5, destroyNode 0]`. -/
theorem testnet_destroy_order_witness :
    wTestnet.destroyTrace[0]? = some (Event.closeServer 0 5) ∧
    ((0 : Nat) < 1 ∧
    wTestnet.destroyTrace.filter Event.isDestroy =
      (List.range wTestnet.nodes.length).reverse.map Event.destroyNode ∧
    (∀ a, ∀ h : a < wTestnet.nodes.length,
      ∀ s ∈ (wTestnet.nodes.get ⟨a, h⟩).listening,
      Event.closeServer a s ∈ wTestnet.destroyTrace)) :=
  ⟨by decide, testnet_destroy_order wTestnet 0 1 0 5 0 (by decide) (by decide)⟩
